import Mathlib

/-!
Verification of the deploy-theme-backend deployment core.

Shallow embedding of the deployment job engine of the
`deploy-theme-backend` repository:

* `src/src/services/deployment.service.ts` — `deployThemeToBusiness`,
  the idempotency check, the in-progress / terminal status writes, the
  pipeline spawn and the rollback invocation;
* `src/src/controllers/deploymentController.ts` — the queue-path
  admission decision of `deployTheme`;
* `src/src/services/deploymentQueue.ts` — `addDeploymentJob` job-option
  construction and `getDeploymentJobStatus`;
* `src/scripts/deploy_theme.sh` — the reverse-proxy configuration step
  and the rollback ordering.

Stateful code is embedded as explicit state passing: the status store
(one JSON file per deployment key under `deployments/`) is a list of
key/record pairs where lookup returns the most recent write, and each
run additionally produces a trace of observable events (record writes,
process spawns) in program order.  External-process outcomes (exit
code, emitted output chunks, spawn errors) are inputs of the embedding,
resolving the nondeterminism of `child_process.spawn`.
-/

namespace DeployTheme

/-- `Deployment.status` values from `src/src/interfaces/deployment.interface.ts`:
`'in_progress' | 'success' | 'failed'`. -/
inductive Status
  | in_progress
  | success
  | failed
deriving DecidableEq, Repr

/-- The persisted `Deployment` record
(`src/src/interfaces/deployment.interface.ts`).  Optional TypeScript
fields (`port?`, `domain?`, `error?`, timestamps are omitted here since
no code path in `deployment.service.ts` ever writes them) are `Option`s
defaulting to `none`, matching a TS object literal that omits the field. -/
structure Deployment where
  themeId : String
  businessId : String
  status : Status
  logs : List String
  port : Option Nat := none
  domain : Option String := none
  error : Option String := none
deriving DecidableEq, Repr

/-- `Theme` input fields used by the service (`theme.themeId`, `theme.repoUrl`). -/
structure Theme where
  themeId : String
  repoUrl : String
deriving DecidableEq, Repr

/-- `Business` input fields used by the service.  `ssh` is `true` when the
optional SSH block is present in the request. -/
structure Business where
  businessId : String
  userId : String
  gtmId : String
  domain : String
  ssh : Bool
deriving DecidableEq, Repr

/-- The status store: the `deployments/` directory, one record per file.
A later write of the same key shadows the earlier one (overwrite). -/
abbrev Store := List (String × Deployment)

/-- `fs.existsSync` + `readFile` of `deployments/<key>.json`: the most
recently written record for the key, if any. -/
def lookupStore : Store → String → Option Deployment
  | [], _ => none
  | (k, d) :: rest, key => if k = key then some d else lookupStore rest key

/-- Observable side effects of one `deployThemeToBusiness` call, in
program order: status-file writes (`fs.promises.writeFile`) and process
spawns (`child_process.spawn`).  The service has no unlink/delete call,
so the event type has no record-removal constructor. -/
inductive Event
  | writeRecord (key : String) (record : Deployment)
  | spawnBashCheck
  | spawnDeploy
  | spawnRollback
deriving DecidableEq, Repr

/-- Whether an event is a process spawn. -/
def Event.isSpawn : Event → Bool
  | .writeRecord _ _ => false
  | .spawnBashCheck => true
  | .spawnDeploy => true
  | .spawnRollback => true

/-- Effect of one event on the status store: a write shadows the key,
spawns leave the store unchanged. -/
def applyEvent (s : Store) : Event → Store
  | .writeRecord k d => (k, d) :: s
  | .spawnBashCheck => s
  | .spawnDeploy => s
  | .spawnRollback => s

/-- The store after a trace of events. -/
def applyEvents (s : Store) (es : List Event) : Store :=
  es.foldl applyEvent s

/-- Outcome of the spawned `deploy_theme.sh` process, an input of the
embedding (resolves the nondeterminism of the external process):
* `exited chunks code` — the process emitted `chunks` on stdout/stderr
  (each pushed to `logs` by the `data` handlers) and exited with `code`;
* `spawnError msg` — the `error` event fired (process could not start);
* `scriptMissing scriptPath` — the pre-spawn `fs.existsSync(scriptPath)`
  check failed and the promise was rejected before spawning the script. -/
inductive PipelineOutcome
  | exited (chunks : List String) (code : Nat)
  | spawnError (msg : String)
  | scriptMissing (scriptPath : String)
deriving DecidableEq, Repr

/-- `true` iff the pipeline promise rejects (any outcome other than exit
code 0). -/
def PipelineOutcome.isFailure : PipelineOutcome → Bool
  | .exited _ 0 => false
  | .exited _ _ => true
  | .spawnError _ => true
  | .scriptMissing _ => true

/-- Outcome of the spawned `rollback_deploy.sh` process. -/
inductive RollbackOutcome
  | exited (chunks : List String) (code : Nat)
  | spawnError (msg : String)
deriving DecidableEq, Repr

/-- The deployment key: `` `${themeId}-${businessId}` ``, used as status
file name, queue job id and log-room topic. -/
def deploymentKey (t : Theme) (b : Business) : String :=
  t.themeId ++ "-" ++ b.businessId

/-- The record written at deployment.service.ts:37-43 before any pipeline
step runs. -/
def inProgressRecord (t : Theme) (b : Business) : Deployment :=
  { themeId := t.themeId
    businessId := b.businessId
    status := .in_progress
    logs := ["Deployment started"] }

/-- Lines pushed to `logs` by the rollback handlers
(deployment.service.ts:195-251).  Stdout/stderr chunks are prefixed
`"[rollback] "`; a non-zero exit pushes the `[ROLLBACK]` exit message but
resolves; a spawn error pushes the `[ROLLBACK]` start-failure message,
rejects, and the enclosing `catch (rollbackError)` then pushes
`"Rollback script failed: " + String(rollbackError)` (JS `String` of an
`Error` renders as `"Error: " ++ msg`). -/
def rollbackLogs (key : String) : RollbackOutcome → List String
  | .exited chunks 0 =>
      chunks.map (fun c => "[rollback] " ++ c)
  | .exited chunks code =>
      chunks.map (fun c => "[rollback] " ++ c)
        ++ ["[ROLLBACK][" ++ key ++ "] rollback_deploy.sh exited with code " ++ toString code]
  | .spawnError msg =>
      ["[ROLLBACK][" ++ key ++ "] Failed to start rollback_deploy.sh: " ++ msg,
       "Rollback script failed: Error: " ++ msg]

/-- `error.toString()` of the value the pipeline promise rejects with,
per failing case (JS `Error.toString()` is `"Error: " ++ message`). -/
def failingStepMessage (key : String) : PipelineOutcome → String
  | .exited _ code =>
      "Error: " ++ ("[DEPLOY][" ++ key ++ "] deploy_theme.sh exited with code " ++ toString code)
  | .spawnError msg => "Error: " ++ msg
  | .scriptMissing p => "Error: Deployment script not found at " ++ p

/-- Lines pushed to `logs` by the `catch` block of
`deployThemeToBusiness` (deployment.service.ts:176-251): the
`"Deployment failed: ..."` message, the rollback-start message, then the
rollback handler output. -/
def failTail (key : String) (errString : String) (rb : RollbackOutcome) : List String :=
  ["Deployment failed: " ++ errString, "Calling rollback_deploy.sh script..."]
    ++ rollbackLogs key rb

/-- Lines pushed to the local `logs` accumulator before the script is
spawned (deployment.service.ts:69 and :86). -/
def preSpawnLogs : List String :=
  ["Initializing deployment process...", "Starting deployment..."]

/-- The non-short-circuited part of `deployThemeToBusiness`
(deployment.service.ts:36-255): write the `in_progress` record, reject
the unsupported SSH branch, otherwise spawn the bash check and the
deployment script, and on any rejection run the rollback once and
persist the `failed` record.  Returns the result record, the final
store, and the event trace in program order. -/
def runDeploymentPipeline (t : Theme) (b : Business) (main : PipelineOutcome)
    (rb : RollbackOutcome) (store : Store) : Deployment × Store × List Event :=
  let key := deploymentKey t b
  let inProg := inProgressRecord t b
  let store1 : Store := (key, inProg) :: store
  if b.ssh then
    let result : Deployment :=
      { themeId := t.themeId, businessId := b.businessId, status := .failed
        logs := ["Remote SSH deployment via bash script not yet implemented."] }
    (result, (key, result) :: store1,
      [.writeRecord key inProg, .writeRecord key result])
  else
    match main with
    | .exited chunks 0 =>
        let result : Deployment :=
          { themeId := t.themeId, businessId := b.businessId, status := .success
            logs := preSpawnLogs ++ chunks }
        (result, (key, result) :: store1,
          [.writeRecord key inProg, .spawnBashCheck, .spawnDeploy,
           .writeRecord key result])
    | .exited chunks code =>
        let exitMsg :=
          "[DEPLOY][" ++ key ++ "] deploy_theme.sh exited with code " ++ toString code
        let result : Deployment :=
          { themeId := t.themeId, businessId := b.businessId, status := .failed
            logs := preSpawnLogs ++ chunks ++ [exitMsg]
              ++ failTail key ("Error: " ++ exitMsg) rb }
        (result, (key, result) :: store1,
          [.writeRecord key inProg, .spawnBashCheck, .spawnDeploy, .spawnRollback,
           .writeRecord key result])
    | .spawnError msg =>
        let spawnMsg :=
          "[DEPLOY][" ++ key ++ "] Failed to start deploy_theme.sh: " ++ msg
        let result : Deployment :=
          { themeId := t.themeId, businessId := b.businessId, status := .failed
            logs := preSpawnLogs ++ [spawnMsg]
              ++ failTail key ("Error: " ++ msg) rb }
        (result, (key, result) :: store1,
          [.writeRecord key inProg, .spawnBashCheck, .spawnDeploy, .spawnRollback,
           .writeRecord key result])
    | .scriptMissing p =>
        let result : Deployment :=
          { themeId := t.themeId, businessId := b.businessId, status := .failed
            logs := preSpawnLogs
              ++ failTail key ("Error: Deployment script not found at " ++ p) rb }
        (result, (key, result) :: store1,
          [.writeRecord key inProg, .spawnBashCheck, .spawnRollback,
           .writeRecord key result])

/-- `deployThemeToBusiness` (deployment.service.ts:21-256): the
idempotency check at lines 27-34 returns an existing record whose status
is `in_progress` or `success` unchanged (no write, no spawn); otherwise
the pipeline runs. -/
def deployThemeToBusiness (t : Theme) (b : Business) (main : PipelineOutcome)
    (rb : RollbackOutcome) (store : Store) : Deployment × Store × List Event :=
  match lookupStore store (deploymentKey t b) with
  | some existing =>
      if existing.status = Status.in_progress ∨ existing.status = Status.success then
        (existing, store, [])
      else
        runDeploymentPipeline t b main rb store
  | none => runDeploymentPipeline t b main rb store

/-! ## Job queue and controller admission (`deploymentQueue.ts`, `deploymentController.ts`) -/

/-- Queue job states at the BullMQ library boundary.  Per spec §3 the
JobRecord `state ∈ {waiting, active, completed, failed}`; `delayed` is
the further state reachable through the queue's delay option. -/
inductive JobState
  | waiting
  | active
  | completed
  | failed
  | delayed
deriving DecidableEq, Repr

/-- The string `job.getState()` resolves to for each state — the value
`getDeploymentJobStatus` (deploymentQueue.ts:101-112) places in the
`status` field of its result. -/
def bullmqStateString : JobState → String
  | .waiting => "waiting"
  | .active => "active"
  | .completed => "completed"
  | .failed => "failed"
  | .delayed => "delayed"

/-- `getDeploymentJobStatus(themeId, businessId).status`
(deploymentQueue.ts:101-112): `null` when no job exists for the key,
otherwise the `getState()` string. -/
def getDeploymentJobStatusStatus (existingJob : Option JobState) : Option String :=
  existingJob.map bullmqStateString

/-- The three ways the queue path of `deployTheme`
(deploymentController.ts:147-201) can respond to a submission. -/
inductive QueueDecision
  | rejectedInProgress
  | returnedExisting
  | enqueued
deriving DecidableEq, Repr

/-- The queue-path admission logic of `deployTheme`
(deploymentController.ts:149-183): fetch the existing job status for the
key; respond 409 when its `status` equals `"in_progress"`, return the
existing job when it equals `"success"`, otherwise call
`addDeploymentJob`. -/
def deployThemeQueueDecision (existingJob : Option JobState) : QueueDecision :=
  match getDeploymentJobStatusStatus existingJob with
  | some s =>
      if s = "in_progress" then .rejectedInProgress
      else if s = "success" then .returnedExisting
      else .enqueued
  | none => .enqueued

/-- The `options` argument of `addDeploymentJob`
(deploymentQueue.ts:67-71): `{ priority?: string; timeout?: number }`. -/
structure AddJobOptions where
  priority : Option String := none
  timeout : Option Nat := none
deriving DecidableEq, Repr

/-- The `jobOptions` object built by `addDeploymentJob`
(deploymentQueue.ts:72-92) and passed to `deploymentQueue.add`. -/
structure DeployJobOptions where
  jobId : String
  removeOnComplete : Bool
  removeOnFail : Bool
  priority : Option Nat := none
  delay : Option Nat := none
  attempts : Option Nat := none
deriving DecidableEq, Repr

/-- The `priorityMap` lookup (deploymentQueue.ts:80-84): `none` models a
JS `undefined` lookup result. -/
def priorityMapLookup (s : String) : Option Nat :=
  if s = "low" then some 1
  else if s = "normal" then some 5
  else if s = "high" then some 10
  else none

/-- JS `x || d` on an optional number: the default is taken when the
lookup is `undefined` or the value is falsy (`0`). -/
def jsOrNat : Option Nat → Nat → Nat
  | some v, d => if v = 0 then d else v
  | none, d => d

/-- `addDeploymentJob`'s construction of `jobOptions`
(deploymentQueue.ts:72-92).  `if (options?.priority)` is JS truthiness:
the branch runs only for a present, non-empty priority string; likewise
`if (options?.timeout)` only for a present, non-zero timeout. -/
def addDeploymentJobOptions (t : Theme) (b : Business)
    (options : Option AddJobOptions) : DeployJobOptions :=
  let base : DeployJobOptions :=
    { jobId := deploymentKey t b, removeOnComplete := false, removeOnFail := false }
  let withPriority :=
    match options.bind AddJobOptions.priority with
    | some p =>
        if p ≠ "" then
          { base with priority := some (jsOrNat (priorityMapLookup p) 5) }
        else base
    | none => base
  match options.bind AddJobOptions.timeout with
  | some ms =>
      if ms ≠ 0 then { withPriority with delay := some 0, attempts := some 1 }
      else withPriority
  | none => withPriority

/-! ## Status-store write mechanism (`fs.promises.writeFile`) -/

/-- File contents observable by a concurrent reader while a plain
`fs.promises.writeFile` overwrites an existing file: the previous
contents before the write begins, then — since the file is truncated and
the new bytes are written in place — every prefix of the new contents up
to and including the complete new contents. -/
def directWriteStates (old new : List Char) : List (List Char) :=
  old :: (List.range (new.length + 1)).map (fun k => new.take k)

/-- The status store persists records with `fs.promises.writeFile`
(deployment.service.ts:43, :49, :174, :253) — a direct in-place
overwrite; no temporary file or rename appears anywhere in the service. -/
def statusStoreWriteStates (old new : List Char) : List (List Char) :=
  directWriteStates old new

/-! ## Reverse-proxy configuration step and rollback (`scripts/deploy_theme.sh`) -/

/-- The port constant of `deploy_theme.sh` (line 25: `PORT=3001`). -/
def scriptPort : Nat := 3001

/-- Proxy-relevant actions of `deploy_theme.sh`, in `deploy()` step 6
(lines 346-388) and, on failure, in `rollback()` (lines 191-234). -/
inductive NginxEvent
  | writeConf
  | linkEnabled
  | testConfig
  | reloadProxy
  | pm2Stop
  | pm2Delete
  | removeDeployDir
  | removeLink
  | removeConf
  | rollbackTestConfig
  | removeTmpDir
deriving DecidableEq, Repr

/-- Ordered action trace of the proxy-configuration step of
`deploy_theme.sh`: write the vhost config to sites-available (line 357),
symlink it into sites-enabled (line 381: `ln -sf`), run `nginx -t`
(line 384), and reload (line 387).  When the test fails, `error_exit`
triggers `rollback()` (the `deploy_in_progress` marker exists), which
stops/deletes the PM2 process, removes the deploy directory, removes
the symlink and the config file, re-tests, reloads only when the re-test
passes (`rollbackTestOk`), and cleans the temp directory. -/
def nginxStepEvents (testOk : Bool) (rollbackTestOk : Bool) : List NginxEvent :=
  if testOk then
    [.writeConf, .linkEnabled, .testConfig, .reloadProxy]
  else
    [.writeConf, .linkEnabled, .testConfig,
     .pm2Stop, .pm2Delete, .removeDeployDir,
     .removeLink, .removeConf, .rollbackTestConfig]
      ++ (if rollbackTestOk then [.reloadProxy] else [])
      ++ [.removeTmpDir]

/-- Whether the new domain's config is linked into sites-enabled after a
trace of actions: `ln -sf` creates the link, the rollback's `rm -f`
removes it. -/
def linkedAfter (evs : List NginxEvent) : Bool :=
  evs.foldl
    (fun b e =>
      match e with
      | .linkEnabled => true
      | .removeLink => false
      | _ => b)
    false

/-! ## Concrete fixtures -/

/-- Sample theme (spec §8 scenario `t1`). -/
def sampleTheme : Theme := { themeId := "t1", repoUrl := "https://example.com/t1.git" }

/-- Sample business (spec §8 scenario `biz1`), local (no SSH). -/
def sampleBusiness : Business :=
  { businessId := "biz1", userId := "u1", gtmId := "g1"
    domain := "biz1.example.com", ssh := false }

/-- A successful terminal record as persisted by a previous run. -/
def sampleSuccessRecord : Deployment :=
  { themeId := "t1", businessId := "biz1", status := .success
    logs := ["Initializing deployment process...", "Starting deployment...", "done"] }

/-- A failed terminal record as persisted by a previous run. -/
def sampleFailedRecord : Deployment :=
  { themeId := "t1", businessId := "biz1", status := .failed
    logs := ["Deployment failed: Error: boom"] }

/-! ## Helper lemmas -/

/-- A key present in the store stays present under any event trace:
events either write (shadowing a key) or spawn (leaving the store
unchanged); no event removes a record. -/
lemma lookup_applyEvents_isSome (es : List Event) (s : Store) (k : String)
    (h : (lookupStore s k).isSome = true) :
    (lookupStore (applyEvents s es) k).isSome = true := by
  induction es generalizing s with
  | nil => exact h
  | cons e rest ih =>
      have hstep : (lookupStore (applyEvent s e) k).isSome = true := by
        cases e with
        | writeRecord k' d =>
            by_cases hk : k' = k
            · simp [applyEvent, lookupStore, hk]
            · simpa [applyEvent, lookupStore, hk] using h
        | spawnBashCheck => exact h
        | spawnDeploy => exact h
        | spawnRollback => exact h
      simpa [applyEvents, List.foldl_cons] using ih (applyEvent s e) hstep

/-- Every pipeline run's event trace starts with the write of the
`in_progress` record. -/
lemma runPipeline_events_shape (t : Theme) (b : Business) (main : PipelineOutcome)
    (rb : RollbackOutcome) (store : Store) :
    ∃ rest, (runDeploymentPipeline t b main rb store).2.2 =
      Event.writeRecord (deploymentKey t b) (inProgressRecord t b) :: rest := by
  unfold runDeploymentPipeline
  cases hb : b.ssh with
  | true => simp [hb]
  | false =>
      cases main with
      | exited chunks code => cases code <;> simp [hb]
      | spawnError msg => simp [hb]
      | scriptMissing p => simp [hb]

/-! ## Claims -/

/-- C1: `deployThemeToBusiness` short-circuits exactly when an existing
persisted record for the key has status `in_progress` or `success`: it
then returns that record with an unchanged store and an empty event
trace (no process spawned, no record written); an existing `failed`
record, or no record at all, leads to the full pipeline run. -/
theorem deploy_short_circuit_iff (t : Theme) (b : Business) (main : PipelineOutcome)
    (rb : RollbackOutcome) (store : Store) :
    (∀ d, lookupStore store (deploymentKey t b) = some d →
      ((d.status = Status.in_progress ∨ d.status = Status.success) →
        deployThemeToBusiness t b main rb store = (d, store, []))
      ∧ (d.status = Status.failed →
        deployThemeToBusiness t b main rb store = runDeploymentPipeline t b main rb store))
    ∧ (lookupStore store (deploymentKey t b) = none →
        deployThemeToBusiness t b main rb store = runDeploymentPipeline t b main rb store) := by
  constructor
  · intro d hd
    constructor
    · intro h
      simp [deployThemeToBusiness, hd, h]
    · intro h
      have hne : ¬ (d.status = Status.in_progress ∨ d.status = Status.success) := by
        rw [h]; decide
      simp [deployThemeToBusiness, hd, hne]
  · intro h
    simp [deployThemeToBusiness, h]

/-- Witness for C1: with a persisted `success` record for `t1-biz1`, the
call returns that record, leaves the store unchanged, and produces no
events; a persisted `failed` record leads to the full pipeline run. -/
theorem deploy_short_circuit_iff_witness :
    deployThemeToBusiness sampleTheme sampleBusiness
        (PipelineOutcome.exited [] 0) (RollbackOutcome.exited [] 0)
        [("t1-biz1", sampleSuccessRecord)]
      = (sampleSuccessRecord, [("t1-biz1", sampleSuccessRecord)], [])
    ∧ deployThemeToBusiness sampleTheme sampleBusiness
        (PipelineOutcome.exited [] 0) (RollbackOutcome.exited [] 0)
        [("t1-biz1", sampleFailedRecord)]
      = runDeploymentPipeline sampleTheme sampleBusiness
          (PipelineOutcome.exited [] 0) (RollbackOutcome.exited [] 0)
          [("t1-biz1", sampleFailedRecord)] :=
  ⟨((deploy_short_circuit_iff sampleTheme sampleBusiness
      (PipelineOutcome.exited [] 0) (RollbackOutcome.exited [] 0)
      [("t1-biz1", sampleSuccessRecord)]).1 sampleSuccessRecord (by decide)).1
      (Or.inr (by decide)),
   ((deploy_short_circuit_iff sampleTheme sampleBusiness
      (PipelineOutcome.exited [] 0) (RollbackOutcome.exited [] 0)
      [("t1-biz1", sampleFailedRecord)]).1 sampleFailedRecord (by decide)).2
      (by decide)⟩

/-- C2 (code bug): the controller's queue-path admission compares the
BullMQ job state to `"in_progress"` and `"success"`, strings
`job.getState()` never returns, so a submission is enqueued for every
existing job state — including `waiting` and `active` — and is never
rejected with the intended 409. -/
theorem deploy_queue_path_always_enqueues :
    ∀ st : JobState, deployThemeQueueDecision (some st) = QueueDecision.enqueued := by
  intro st
  cases st <;> decide

/-- C3: every non-short-circuited run durably writes the `in_progress`
record as its very first event — in particular before any process spawn —
and after that first write a record for the key is present in the store
at every point of the trace (no event ever removes it). -/
theorem in_progress_written_before_any_step (t : Theme) (b : Business)
    (main : PipelineOutcome) (rb : RollbackOutcome) (store : Store) :
    ((runDeploymentPipeline t b main rb store).2.2 ≠ [])
    ∧ ((runDeploymentPipeline t b main rb store).2.2.head? =
        some (Event.writeRecord (deploymentKey t b) (inProgressRecord t b)))
    ∧ (∀ n, 1 ≤ n →
        (lookupStore
          (applyEvents store ((runDeploymentPipeline t b main rb store).2.2.take n))
          (deploymentKey t b)).isSome = true) := by
  obtain ⟨rest, hev⟩ := runPipeline_events_shape t b main rb store
  refine ⟨by rw [hev]; simp, by rw [hev]; simp, ?_⟩
  intro n hn
  rw [hev]
  cases n with
  | zero => omega
  | succ m =>
      rw [List.take_succ_cons]
      have hbase :
          (lookupStore ((deploymentKey t b, inProgressRecord t b) :: store)
            (deploymentKey t b)).isSome = true := by
        simp [lookupStore]
      simpa [applyEvents, List.foldl_cons, applyEvent] using
        lookup_applyEvents_isSome (rest.take m)
          ((deploymentKey t b, inProgressRecord t b) :: store) (deploymentKey t b) hbase

/-- Witness for C3: on a fresh store, after the first event of a concrete
failing run the key `t1-biz1` is present in the store. -/
theorem in_progress_written_before_any_step_witness :
    (lookupStore
      (applyEvents []
        ((runDeploymentPipeline sampleTheme sampleBusiness
            (PipelineOutcome.exited [] 1) (RollbackOutcome.exited [] 0) []).2.2.take 1))
      (deploymentKey sampleTheme sampleBusiness)).isSome = true :=
  (in_progress_written_before_any_step sampleTheme sampleBusiness
      (PipelineOutcome.exited [] 1) (RollbackOutcome.exited [] 0) []).2.2 1 (by decide)

/-- C4 counterexample: on a concrete run whose deployment script exits
with code 1, the final persisted record has status `failed` but its
`error` field is absent (`none`) — the claim requires it to be present
and equal to the failing step's message. -/
theorem failed_record_error_field_absent :
    (runDeploymentPipeline sampleTheme sampleBusiness
        (PipelineOutcome.exited [] 1) (RollbackOutcome.exited [] 0) []).1.status
      = Status.failed
    ∧ (runDeploymentPipeline sampleTheme sampleBusiness
        (PipelineOutcome.exited [] 1) (RollbackOutcome.exited [] 0) []).1.error
      = none := ⟨rfl, rfl⟩

/-- C4 amended: on every failing run the final record has status `failed`
and the failing step's message appears in `logs` (as
`"Deployment failed: " ++ error.toString()`), while the `error` field is
never written (`none`), so it trivially is present only when the status
is `failed`. -/
theorem failed_run_message_in_logs (t : Theme) (b : Business) (main : PipelineOutcome)
    (rb : RollbackOutcome) (store : Store) (hssh : b.ssh = false)
    (hfail : main.isFailure = true) :
    ((runDeploymentPipeline t b main rb store).1.status = Status.failed)
    ∧ (("Deployment failed: " ++ failingStepMessage (deploymentKey t b) main)
        ∈ (runDeploymentPipeline t b main rb store).1.logs)
    ∧ ((runDeploymentPipeline t b main rb store).1.error = none) := by
  cases main with
  | exited chunks code =>
      cases code with
      | zero => simp [PipelineOutcome.isFailure] at hfail
      | succ c =>
          refine ⟨?_, ?_, ?_⟩ <;>
            simp [runDeploymentPipeline, hssh, failTail, failingStepMessage]
  | spawnError msg =>
      refine ⟨?_, ?_, ?_⟩ <;>
        simp [runDeploymentPipeline, hssh, failTail, failingStepMessage]
  | scriptMissing p =>
      refine ⟨?_, ?_, ?_⟩ <;>
        simp [runDeploymentPipeline, hssh, failTail, failingStepMessage]

/-- Witness for the amended C4 at a concrete failing run. -/
theorem failed_run_message_in_logs_witness :
    ((runDeploymentPipeline sampleTheme sampleBusiness
        (PipelineOutcome.exited [] 1) (RollbackOutcome.exited [] 0) []).1.status
      = Status.failed)
    ∧ (("Deployment failed: "
          ++ failingStepMessage (deploymentKey sampleTheme sampleBusiness)
              (PipelineOutcome.exited [] 1))
        ∈ (runDeploymentPipeline sampleTheme sampleBusiness
            (PipelineOutcome.exited [] 1) (RollbackOutcome.exited [] 0) []).1.logs)
    ∧ ((runDeploymentPipeline sampleTheme sampleBusiness
        (PipelineOutcome.exited [] 1) (RollbackOutcome.exited [] 0) []).1.error = none) :=
  failed_run_message_in_logs sampleTheme sampleBusiness
    (PipelineOutcome.exited [] 1) (RollbackOutcome.exited [] 0) [] rfl rfl

/-- C5: every failing run spawns the rollback script exactly once; a
rollback spawn failure or non-zero rollback exit is recorded in `logs`
and is absorbed (the call still returns a record — for every rollback
outcome the final status is `failed`, never an exception to the caller). -/
theorem rollback_once_and_absorbed (t : Theme) (b : Business) (main : PipelineOutcome)
    (rb : RollbackOutcome) (store : Store) (hssh : b.ssh = false)
    (hfail : main.isFailure = true) :
    ((runDeploymentPipeline t b main rb store).2.2.count Event.spawnRollback = 1)
    ∧ ((runDeploymentPipeline t b main rb store).1.status = Status.failed)
    ∧ (∀ msg, rb = RollbackOutcome.spawnError msg →
        ("Rollback script failed: Error: " ++ msg)
          ∈ (runDeploymentPipeline t b main rb store).1.logs)
    ∧ (∀ chunks code, rb = RollbackOutcome.exited chunks (code + 1) →
        ("[ROLLBACK][" ++ deploymentKey t b ++ "] rollback_deploy.sh exited with code "
            ++ toString (code + 1))
          ∈ (runDeploymentPipeline t b main rb store).1.logs) := by
  have main_cases :
      ∀ logsPre : List String,
        (∀ msg, rb = RollbackOutcome.spawnError msg →
          ("Rollback script failed: Error: " ++ msg)
            ∈ logsPre ++ failTail (deploymentKey t b)
                (failingStepMessage (deploymentKey t b) main) rb)
        ∧ (∀ chunks code, rb = RollbackOutcome.exited chunks (code + 1) →
          ("[ROLLBACK][" ++ deploymentKey t b ++ "] rollback_deploy.sh exited with code "
              ++ toString (code + 1))
            ∈ logsPre ++ failTail (deploymentKey t b)
                (failingStepMessage (deploymentKey t b) main) rb) := by
    intro logsPre
    constructor
    · intro msg hrb
      subst hrb
      simp [failTail, rollbackLogs]
    · intro chunks code hrb
      subst hrb
      simp [failTail, rollbackLogs]
  cases main with
  | exited chunks code =>
      cases code with
      | zero => simp [PipelineOutcome.isFailure] at hfail
      | succ c =>
          refine ⟨?_, ?_, ?_, ?_⟩
          · simp [runDeploymentPipeline, hssh]
          · simp [runDeploymentPipeline, hssh]
          · intro msg hrb
            have := (main_cases
              (preSpawnLogs ++ chunks
                ++ ["[DEPLOY][" ++ deploymentKey t b
                      ++ "] deploy_theme.sh exited with code " ++ toString (c + 1)])).1 msg hrb
            simpa [runDeploymentPipeline, hssh, failingStepMessage, List.append_assoc]
              using this
          · intro rchunks rcode hrb
            have := (main_cases
              (preSpawnLogs ++ chunks
                ++ ["[DEPLOY][" ++ deploymentKey t b
                      ++ "] deploy_theme.sh exited with code " ++ toString (c + 1)])).2
              rchunks rcode hrb
            simpa [runDeploymentPipeline, hssh, failingStepMessage, List.append_assoc]
              using this
  | spawnError msg0 =>
      refine ⟨?_, ?_, ?_, ?_⟩
      · simp [runDeploymentPipeline, hssh]
      · simp [runDeploymentPipeline, hssh]
      · intro msg hrb
        have := (main_cases
          (preSpawnLogs
            ++ ["[DEPLOY][" ++ deploymentKey t b
                  ++ "] Failed to start deploy_theme.sh: " ++ msg0])).1 msg hrb
        simpa [runDeploymentPipeline, hssh, failingStepMessage, List.append_assoc]
          using this
      · intro rchunks rcode hrb
        have := (main_cases
          (preSpawnLogs
            ++ ["[DEPLOY][" ++ deploymentKey t b
                  ++ "] Failed to start deploy_theme.sh: " ++ msg0])).2 rchunks rcode hrb
        simpa [runDeploymentPipeline, hssh, failingStepMessage, List.append_assoc]
          using this
  | scriptMissing p =>
      refine ⟨?_, ?_, ?_, ?_⟩
      · simp [runDeploymentPipeline, hssh]
      · simp [runDeploymentPipeline, hssh]
      · intro msg hrb
        have := (main_cases preSpawnLogs).1 msg hrb
        simpa [runDeploymentPipeline, hssh, failingStepMessage, List.append_assoc]
          using this
      · intro rchunks rcode hrb
        have := (main_cases preSpawnLogs).2 rchunks rcode hrb
        simpa [runDeploymentPipeline, hssh, failingStepMessage, List.append_assoc]
          using this

/-- Witness for C5 at concrete failing runs: a rollback spawn error and a
non-zero rollback exit are both recorded in `logs`, with exactly one
rollback spawn and final status `failed`. -/
theorem rollback_once_and_absorbed_witness :
    ((runDeploymentPipeline sampleTheme sampleBusiness (PipelineOutcome.exited [] 1)
        (RollbackOutcome.spawnError "boom") []).2.2.count Event.spawnRollback = 1)
    ∧ (("Rollback script failed: Error: boom")
        ∈ (runDeploymentPipeline sampleTheme sampleBusiness (PipelineOutcome.exited [] 1)
            (RollbackOutcome.spawnError "boom") []).1.logs)
    ∧ (("[ROLLBACK][" ++ deploymentKey sampleTheme sampleBusiness
          ++ "] rollback_deploy.sh exited with code " ++ toString (0 + 1))
        ∈ (runDeploymentPipeline sampleTheme sampleBusiness (PipelineOutcome.exited [] 1)
            (RollbackOutcome.exited [] (0 + 1)) []).1.logs) :=
  ⟨(rollback_once_and_absorbed sampleTheme sampleBusiness (PipelineOutcome.exited [] 1)
      (RollbackOutcome.spawnError "boom") [] rfl rfl).1,
   (rollback_once_and_absorbed sampleTheme sampleBusiness (PipelineOutcome.exited [] 1)
      (RollbackOutcome.spawnError "boom") [] rfl rfl).2.2.1 "boom" rfl,
   (rollback_once_and_absorbed sampleTheme sampleBusiness (PipelineOutcome.exited [] 1)
      (RollbackOutcome.exited [] (0 + 1)) [] rfl rfl).2.2.2 [] 0 rfl⟩

/-- C6 counterexample: the status store writes with a plain
`fs.promises.writeFile`, so overwriting the record `"xy"` with `"ab"` can
expose the partial contents `"a"` to a concurrent reader — a state that
is neither the previous nor the new complete record, refuting the atomic
(write-to-temp-then-rename) overwrite claim. -/
theorem direct_write_partial_state_visible :
    ['a'] ∈ statusStoreWriteStates ['x', 'y'] ['a', 'b']
    ∧ ['a'] ≠ ['x', 'y'] ∧ ['a'] ≠ ['a', 'b'] := by decide

/-- C6 amended: a status-store write is a direct in-place overwrite: a
concurrent reader observes the previous contents or some prefix of the
new contents (possibly partial); the complete new contents are among the
observable states, but intermediate prefixes are too. -/
theorem direct_write_states_characterized (old new : List Char) :
    (∀ s ∈ statusStoreWriteStates old new, s = old ∨ s.isPrefixOf new = true)
    ∧ new ∈ statusStoreWriteStates old new := by
  constructor
  · intro s hs
    simp only [statusStoreWriteStates, directWriteStates, List.mem_cons,
      List.mem_map, List.mem_range] at hs
    rcases hs with h | ⟨k, _, hkeq⟩
    · exact Or.inl h
    · right
      rw [← hkeq, List.isPrefixOf_iff_prefix]
      exact List.take_prefix k new
  · simp only [statusStoreWriteStates, directWriteStates, List.mem_cons,
      List.mem_map, List.mem_range]
    exact Or.inr ⟨new.length, by omega, by simp⟩

/-- Witness for the amended C6 at a concrete write. -/
theorem direct_write_states_characterized_witness :
    ['a'] = ['x', 'y'] ∨ List.isPrefixOf ['a'] ['a', 'b'] = true :=
  (direct_write_states_characterized ['x', 'y'] ['a', 'b']).1 ['a'] (by decide)

/-- C7 counterexample: in `deploy_theme.sh` the vhost config is linked
into sites-enabled (`ln -sf`, line 381) before `nginx -t` runs
(line 384): in a run whose validation fails, after the first two actions
the failing config is already linked while no validation has happened. -/
theorem link_created_before_validation :
    ((nginxStepEvents false true).indexOf NginxEvent.linkEnabled
      < (nginxStepEvents false true).indexOf NginxEvent.testConfig)
    ∧ linkedAfter ((nginxStepEvents false true).take 2) = true
    ∧ NginxEvent.testConfig ∉ (nginxStepEvents false true).take 2 := by decide

/-- C7 amended: the symlink is created before validation, not after; but
on validation failure the triggered rollback removes the link (and the
config file) before any proxy reload, so at every `reload` action of a
failed-validation run the failing config is no longer linked.  The bound
12 exceeds the trace length, so the quantification covers every index. -/
theorem link_removed_before_any_reload (rollbackTestOk : Bool) :
    ((nginxStepEvents false rollbackTestOk).indexOf NginxEvent.linkEnabled
      < (nginxStepEvents false rollbackTestOk).indexOf NginxEvent.testConfig)
    ∧ ((nginxStepEvents false rollbackTestOk).length < 12)
    ∧ (∀ n, n < 12 →
        (nginxStepEvents false rollbackTestOk).get? n = some NginxEvent.reloadProxy →
        linkedAfter ((nginxStepEvents false rollbackTestOk).take n) = false) := by
  cases rollbackTestOk <;> exact ⟨by decide, by decide, by decide⟩

/-- Witness for the amended C7: in the failed-validation trace whose
rollback re-test passes, the reload happens at index 9, where the link
has already been removed. -/
theorem link_removed_before_any_reload_witness :
    linkedAfter ((nginxStepEvents false true).take 9) = false :=
  (link_removed_before_any_reload true).2.2 9 (by decide) (by decide)

/-- C8 counterexample: a concrete successful run persists a record with
status `success` whose `domain` and `port` fields are absent — not equal
to the submitted tenant domain or the script's resolved port 3001. -/
theorem success_record_missing_domain_port :
    (runDeploymentPipeline sampleTheme sampleBusiness
        (PipelineOutcome.exited ["step output"] 0) (RollbackOutcome.exited [] 0) []).1.status
      = Status.success
    ∧ (runDeploymentPipeline sampleTheme sampleBusiness
        (PipelineOutcome.exited ["step output"] 0) (RollbackOutcome.exited [] 0) []).1.domain
      = none
    ∧ (runDeploymentPipeline sampleTheme sampleBusiness
        (PipelineOutcome.exited ["step output"] 0) (RollbackOutcome.exited [] 0) []).1.domain
      ≠ some sampleBusiness.domain
    ∧ (runDeploymentPipeline sampleTheme sampleBusiness
        (PipelineOutcome.exited ["step output"] 0) (RollbackOutcome.exited [] 0) []).1.port
      = none
    ∧ (runDeploymentPipeline sampleTheme sampleBusiness
        (PipelineOutcome.exited ["step output"] 0) (RollbackOutcome.exited [] 0) []).1.port
      ≠ some scriptPort := by
  refine ⟨rfl, rfl, by decide, rfl, by decide⟩

/-- C8 amended: every successful run persists a record with status
`success`, the submitted ids, and logs equal to the node-side messages
followed by the script's emitted output; the `domain`, `port` and
`error` fields are not written (the script's resolved port stays
internal to the script). -/
theorem success_record_shape (t : Theme) (b : Business) (chunks : List String)
    (rb : RollbackOutcome) (store : Store) (hssh : b.ssh = false) :
    ((runDeploymentPipeline t b (PipelineOutcome.exited chunks 0) rb store).1.status
      = Status.success)
    ∧ ((runDeploymentPipeline t b (PipelineOutcome.exited chunks 0) rb store).1.themeId
      = t.themeId)
    ∧ ((runDeploymentPipeline t b (PipelineOutcome.exited chunks 0) rb store).1.businessId
      = b.businessId)
    ∧ ((runDeploymentPipeline t b (PipelineOutcome.exited chunks 0) rb store).1.logs
      = preSpawnLogs ++ chunks)
    ∧ ((runDeploymentPipeline t b (PipelineOutcome.exited chunks 0) rb store).1.domain
      = none)
    ∧ ((runDeploymentPipeline t b (PipelineOutcome.exited chunks 0) rb store).1.port
      = none)
    ∧ ((runDeploymentPipeline t b (PipelineOutcome.exited chunks 0) rb store).1.error
      = none) := by
  refine ⟨?_, ?_, ?_, ?_, ?_, ?_, ?_⟩ <;> simp [runDeploymentPipeline, hssh]

/-- Witness for the amended C8 at the spec §8 scenario inputs. -/
theorem success_record_shape_witness :
    ((runDeploymentPipeline sampleTheme sampleBusiness
        (PipelineOutcome.exited ["step output"] 0) (RollbackOutcome.exited [] 0) []).1.status
      = Status.success)
    ∧ ((runDeploymentPipeline sampleTheme sampleBusiness
        (PipelineOutcome.exited ["step output"] 0) (RollbackOutcome.exited [] 0) []).1.logs
      = preSpawnLogs ++ ["step output"]) :=
  ⟨(success_record_shape sampleTheme sampleBusiness ["step output"]
      (RollbackOutcome.exited [] 0) [] rfl).1,
   (success_record_shape sampleTheme sampleBusiness ["step output"]
      (RollbackOutcome.exited [] 0) [] rfl).2.2.2.1⟩

/-- C9 counterexample: the initial `in_progress` record's logs
(`["Deployment started"]`) are not a prefix of — indeed do not appear in —
the terminal record's logs of a concrete successful run: the terminal
write rebuilds `logs` from a separate accumulator. -/
theorem initial_logs_not_prefix_of_final :
    ((inProgressRecord sampleTheme sampleBusiness).logs.isPrefixOf
      (runDeploymentPipeline sampleTheme sampleBusiness
        (PipelineOutcome.exited [] 0) (RollbackOutcome.exited [] 0) []).1.logs) = false
    ∧ "Deployment started" ∉
        (runDeploymentPipeline sampleTheme sampleBusiness
          (PipelineOutcome.exited [] 0) (RollbackOutcome.exited [] 0) []).1.logs := by
  decide

/-- C9 amended: within the terminal record, `logs` is built append-only
over the run's in-memory accumulator — the node-side pre-spawn messages
come first, the script output is appended after them, and any failure
and rollback lines only after those — but the initial persisted record's
logs line `"Deployment started"` is not carried into the terminal
record. -/
theorem terminal_logs_extend_accumulator (t : Theme) (b : Business)
    (chunks : List String) (code : Nat) (rb : RollbackOutcome) (store : Store)
    (hssh : b.ssh = false) :
    (preSpawnLogs.isPrefixOf
      (runDeploymentPipeline t b (PipelineOutcome.exited chunks code) rb store).1.logs
      = true)
    ∧ ((preSpawnLogs ++ chunks).isPrefixOf
      (runDeploymentPipeline t b (PipelineOutcome.exited chunks code) rb store).1.logs
      = true)
    ∧ (inProgressRecord t b).logs = ["Deployment started"] := by
  cases code with
  | zero =>
      refine ⟨?_, ?_, rfl⟩
      · rw [ List.isPrefixOf_iff_prefix]
        simp only [runDeploymentPipeline, hssh, Bool.false_eq_true, if_false]
        exact List.prefix_append _ _
      · rw [ List.isPrefixOf_iff_prefix]
        simp only [runDeploymentPipeline, hssh, Bool.false_eq_true, if_false]
        exact List.prefix_refl _
  | succ c =>
      refine ⟨?_, ?_, rfl⟩
      · rw [ List.isPrefixOf_iff_prefix]
        simp only [runDeploymentPipeline, hssh, Bool.false_eq_true, if_false]
        exact ((List.prefix_append _ _).trans (List.prefix_append _ _)).trans
          (List.prefix_append _ _)
      · rw [ List.isPrefixOf_iff_prefix]
        simp only [runDeploymentPipeline, hssh, Bool.false_eq_true, if_false]
        exact (List.prefix_append _ _).trans (List.prefix_append _ _)

/-- Witness for the amended C9 at a concrete failing run. -/
theorem terminal_logs_extend_accumulator_witness :
    ((preSpawnLogs ++ ["cloning..."]).isPrefixOf
      (runDeploymentPipeline sampleTheme sampleBusiness
        (PipelineOutcome.exited ["cloning..."] 1) (RollbackOutcome.exited [] 0) []).1.logs
      = true) :=
  (terminal_logs_extend_accumulator sampleTheme sampleBusiness ["cloning..."] 1
    (RollbackOutcome.exited [] 0) [] rfl).2.1

/-- Closed form of the `priority` field produced by
`addDeploymentJobOptions`: a weight is attached only for a present,
non-empty priority string (JS truthiness of `options?.priority`); the
timeout branch never touches the priority field. -/
lemma addDeploymentJobOptions_priority (t : Theme) (b : Business)
    (opts : Option AddJobOptions) :
    (addDeploymentJobOptions t b opts).priority =
      match opts.bind AddJobOptions.priority with
      | some p => if p ≠ "" then some (jsOrNat (priorityMapLookup p) 5) else none
      | none => none := by
  unfold addDeploymentJobOptions
  cases hP : opts.bind AddJobOptions.priority with
  | none =>
      cases hT : opts.bind AddJobOptions.timeout with
      | none => simp
      | some ms => by_cases hms : ms = 0 <;> simp [hms]
  | some p =>
      by_cases hpe : p = ""
      · cases hT : opts.bind AddJobOptions.timeout with
        | none => simp [hpe]
        | some ms => by_cases hms : ms = 0 <;> simp [hpe, hms]
      · cases hT : opts.bind AddJobOptions.timeout with
        | none => simp [hpe]
        | some ms => by_cases hms : ms = 0 <;> simp [hpe, hms]

/-- C10 counterexample: giving the priority option the empty string — a
value other than `'low'`/`'normal'`/`'high'` — attaches no priority
weight at all (JS `if (options?.priority)` treats `''` as falsy), where
the claim demands the default weight 5. -/
theorem empty_priority_attaches_no_weight :
    (addDeploymentJobOptions sampleTheme sampleBusiness
        (some { priority := some "", timeout := none })).priority = none
    ∧ (addDeploymentJobOptions sampleTheme sampleBusiness
        (some { priority := some "", timeout := none })).priority ≠ some 5 := by
  refine ⟨?_, ?_⟩ <;> simp [addDeploymentJobOptions_priority]

/-- C10 amended: a present, non-empty priority string is mapped through
the priority map (`'low' ↦ 1`, `'normal' ↦ 5`, `'high' ↦ 10`, any other
non-empty string ↦ 5); a missing or empty priority attaches no weight. -/
theorem priority_weight_mapping (t : Theme) (b : Business)
    (opts : Option AddJobOptions) :
    (∀ p, opts.bind AddJobOptions.priority = some p → p ≠ "" →
      (addDeploymentJobOptions t b opts).priority = some ((priorityMapLookup p).getD 5))
    ∧ (opts.bind AddJobOptions.priority = none →
        (addDeploymentJobOptions t b opts).priority = none)
    ∧ (opts.bind AddJobOptions.priority = some "" →
        (addDeploymentJobOptions t b opts).priority = none)
    ∧ priorityMapLookup "low" = some 1
    ∧ priorityMapLookup "normal" = some 5
    ∧ priorityMapLookup "high" = some 10
    ∧ (∀ p, p ≠ "low" → p ≠ "normal" → p ≠ "high" → priorityMapLookup p = none) := by
  refine ⟨?_, ?_, ?_, by decide, by decide, by decide, ?_⟩
  · intro p hp hne
    rw [addDeploymentJobOptions_priority, hp]
    simp only [hne, if_true, ne_eq, not_false_iff, if_pos]
    have : jsOrNat (priorityMapLookup p) 5 = (priorityMapLookup p).getD 5 := by
      by_cases h1 : p = "low"
      · simp [priorityMapLookup, h1, jsOrNat]
      · by_cases h2 : p = "normal"
        · simp [priorityMapLookup, h1, h2, jsOrNat]
        · by_cases h3 : p = "high"
          · simp [priorityMapLookup, h1, h2, h3, jsOrNat]
          · simp [priorityMapLookup, h1, h2, h3, jsOrNat]
    rw [this]
  · intro hp
    rw [addDeploymentJobOptions_priority, hp]
  · intro hp
    rw [addDeploymentJobOptions_priority, hp]
    simp
  · intro p h1 h2 h3
    simp [priorityMapLookup, h1, h2, h3]

/-- Witness for the amended C10: `'high'` is mapped to weight 10, and a
wholly absent options object attaches no weight. -/
theorem priority_weight_mapping_witness :
    (addDeploymentJobOptions sampleTheme sampleBusiness
        (some { priority := some "high", timeout := none })).priority = some 10
    ∧ (addDeploymentJobOptions sampleTheme sampleBusiness none).priority = none :=
  ⟨(priority_weight_mapping sampleTheme sampleBusiness
      (some { priority := some "high", timeout := none })).1 "high" rfl (by decide),
   (priority_weight_mapping sampleTheme sampleBusiness none).2.1 rfl⟩

end DeployTheme
